import Mathlib

/-!
Shallow embedding of the retrieval-augmented query pipeline of the
corporate-ai-chatbot repository: error model (`error_handler.py`), retry
wrapper, vector-store search / upsert / context extraction
(`vector_store.py`), LLM client (`llm_client.py`), query orchestration
(`base_agent.py`) and the document chunker (`load_documents.py`).

Python strings are modelled as Lean `String` (a list of characters, so
`len` is the character count as in Python); machine floats used for
similarity scores and delays are modelled as rationals; Python
exceptions are modelled by an explicit `Except`/error type, and the
`try`/`except` blocks of the source become explicit case analysis.
-/

namespace Chatbot

/-- Characters Python's `str.strip()` removes. -/
def pyWS (c : Char) : Bool :=
  c == ' ' || c == '\t' || c == '\n' || c == '\r' || c == '\x0b' || c == '\x0c'

/-- Right strip on the character list (Python `str.rstrip()`). -/
def rstripData (l : List Char) : List Char :=
  ((l.reverse.dropWhile pyWS)).reverse

/-- Both-sides strip on the character list (Python `str.strip()`). -/
def stripData (l : List Char) : List Char :=
  (rstripData l).dropWhile pyWS

/-- Python `str.strip()` on strings. -/
def pyStrip (s : String) : String := ⟨stripData s.data⟩

/-- Python slice `s[-n:]`: the final `min n (len s)` characters. -/
def sliceLast (n : Nat) (s : String) : String :=
  ⟨s.data.drop (s.data.length - n)⟩

/-- `error_handler.ErrorCode`: the system's error codes. -/
inductive ErrorCode where
  | UNKNOWN_ERROR
  | CONFIGURATION_ERROR
  | OPENAI_API_ERROR
  | OPENAI_RATE_LIMIT
  | OPENAI_TIMEOUT
  | PINECONE_API_ERROR
  | PINECONE_CONNECTION_ERROR
  | TELEGRAM_API_ERROR
  | TELEGRAM_SEND_ERROR
  | NO_DATA_FOUND
  | INVALID_QUERY
  | EMPTY_RESPONSE
  | AGENT_NOT_FOUND
  | AGENT_EXECUTION_ERROR
  | UNAUTHORIZED_USER
  | ACCESS_DENIED
deriving DecidableEq, Repr

/-- `ErrorCode.value`: the string code of each enum member. -/
def ErrorCode.value : ErrorCode → String
  | .UNKNOWN_ERROR => ("E001")
  | .CONFIGURATION_ERROR => ("E002")
  | .OPENAI_API_ERROR => ("E101")
  | .OPENAI_RATE_LIMIT => ("E102")
  | .OPENAI_TIMEOUT => ("E103")
  | .PINECONE_API_ERROR => ("E201")
  | .PINECONE_CONNECTION_ERROR => ("E202")
  | .TELEGRAM_API_ERROR => ("E301")
  | .TELEGRAM_SEND_ERROR => ("E302")
  | .NO_DATA_FOUND => ("E401")
  | .INVALID_QUERY => ("E402")
  | .EMPTY_RESPONSE => ("E403")
  | .AGENT_NOT_FOUND => ("E501")
  | .AGENT_EXECUTION_ERROR => ("E502")
  | .UNAUTHORIZED_USER => ("E601")
  | .ACCESS_DENIED => ("E602")

/-- `error_handler.ChatbotException`: message, error code and a
details dictionary (modelled as an association list). -/
structure ChatbotError where
  message : String
  error_code : ErrorCode
  details : List (String × String)
deriving DecidableEq, Repr

/-- `ChatbotException.get_user_message`: fixed user-facing message per
error code, with a generic default. -/
def ChatbotError.get_user_message (e : ChatbotError) : String :=
  match e.error_code with
  | .NO_DATA_FOUND =>
      ("К сожалению, я не нашел информацию по вашему запросу в базе знаний. " ++
       "Попробуйте переформулировать вопрос или обратитесь к специалисту.")
  | .OPENAI_API_ERROR =>
      ("Произошла ошибка при обработке запроса. " ++
       "Пожалуйста, попробуйте еще раз через некоторое время.")
  | .OPENAI_RATE_LIMIT =>
      ("Превышен лимит запросов. " ++
       "Пожалуйста, подождите немного и попробуйте снова.")
  | .PINECONE_API_ERROR =>
      ("Ошибка при поиске в базе знаний. " ++
       "Пожалуйста, попробуйте еще раз.")
  | .INVALID_QUERY =>
      ("Не удалось понять ваш запрос. " ++
       "Пожалуйста, сформулируйте вопрос более подробно.")
  | .UNAUTHORIZED_USER =>
      ("У вас нет доступа к этому боту. " ++
       "Пожалуйста, свяжитесь с администратором.")
  | .AGENT_NOT_FOUND =>
      ("Выбранный агент не найден. " ++
       "Используйте команды /finance, /legal или /project.")
  | _ =>
      ("Произошла ошибка. Пожалуйста, попробуйте еще раз или обратитесь в поддержку.")

/-- A Python exception reaching an `except Exception` handler: either a
`ChatbotException` (or subclass) or some other exception carrying its
message and its type's name. -/
inductive PyExc where
  | chatbot (e : ChatbotError)
  | other (msg : String) (tyName : String)
deriving DecidableEq, Repr

/-- Python `str(e)` on an exception (for `ChatbotException` this is the
`message` passed to `super().__init__`). -/
def PyExc.str : PyExc → String
  | .chatbot e => e.message
  | .other m _ => m

/-- Python `type(e).__name__`. -/
def PyExc.tyName : PyExc → String
  | .chatbot _ => ("ChatbotException")
  | .other _ t => t

/-- `OpenAIException(message)`: a `ChatbotException` with code E101 and
empty details. -/
def openAIExc (msg : String) : PyExc :=
  .chatbot ⟨msg, .OPENAI_API_ERROR, []⟩

/-- `PineconeException(message)`: a `ChatbotException` with code E201 and
empty details. -/
def pineconeExc (msg : String) : PyExc :=
  .chatbot ⟨msg, .PINECONE_API_ERROR, []⟩

/-- `error_handler.handle_exception`: a `ChatbotException` is returned
unchanged (the context is only logged); any other exception is converted
into a `ChatbotException` with code `UNKNOWN_ERROR` whose details are the
context plus the original error string and type name. -/
def handle_exception (e : PyExc) (context : List (String × String)) : ChatbotError :=
  match e with
  | .chatbot ce => ce
  | .other msg ty =>
      ⟨msg, .UNKNOWN_ERROR,
        context ++ [(("original_error"), msg), (("error_type"), ty)]⟩

/-- `handle_exception` applied to Python's `None` (the `last_exception`
initial value when the retry loop body never runs): `str(None)` is
`"None"` and `type(None).__name__` is `"NoneType"`. -/
def handle_exception_opt (e : Option PyExc) (context : List (String × String)) :
    ChatbotError :=
  match e with
  | some e => handle_exception e context
  | none => handle_exception (.other ("None") ("NoneType")) context

/-- The context dictionary the retry wrapper passes to
`handle_exception` after exhausting all attempts. -/
def retry_ctx (fname : String) (max_retries : Nat) : List (String × String) :=
  [(("function"), fname), (("max_retries"), toString max_retries),
   (("attempts"), toString max_retries)]

/-- Observable outcome of a call through the retry wrapper: the returned
value or raised error, the number of invocations of the wrapped
operation, and the sequence of `time.sleep` delays performed. -/
structure RetryResult (α : Type) where
  result : Except ChatbotError α
  calls : Nat
  sleeps : List ℚ
deriving Repr

/-- The retry loop of `error_handler.retry_on_error`: `remaining`
attempts are left, the next one having index `attempt`; `last` is
`last_exception`.  On failure at `attempt < max_retries - 1` the wrapper
sleeps `delay * (attempt + 1)` before the next attempt; after the last
failed attempt it raises `handle_exception(last_exception, ctx)`. -/
def retryAux (op : Nat → Except PyExc α) (max_retries : Nat) (delay : ℚ)
    (fname : String) : Nat → Nat → Option PyExc → RetryResult α
  | 0, _, last =>
      ⟨.error (handle_exception_opt last (retry_ctx fname max_retries)), 0, []⟩
  | remaining + 1, attempt, _ =>
      match op attempt with
      | .ok a => ⟨.ok a, 1, []⟩
      | .error e =>
          let rest := retryAux op max_retries delay fname remaining (attempt + 1) (some e)
          if attempt < max_retries - 1 then
            ⟨rest.result, rest.calls + 1, delay * ((attempt + 1 : Nat) : ℚ) :: rest.sleeps⟩
          else
            ⟨rest.result, rest.calls + 1, rest.sleeps⟩

/-- `error_handler.retry_on_error(max_retries, delay)` applied to an
operation; `op n` is the outcome of the n-th invocation (0-based). -/
def retry_on_error (op : Nat → Except PyExc α) (max_retries : Nat) (delay : ℚ)
    (fname : String) : RetryResult α :=
  retryAux op max_retries delay fname max_retries 0 none

/-- Metadata stored with a vector: `metadata.get(key, default)` access,
so each field is optional (`text` defaults to `''`, `source` to a fixed
fallback string). -/
structure MatchMeta where
  text : Option String
  source : Option String
deriving DecidableEq, Repr

/-- One entry of `results.matches` as `VectorStore.search` consumes it,
and also one element of the list `search` returns: id, cosine score and
stored metadata. -/
structure SearchMatch where
  id : String
  score : ℚ
  metadata : MatchMeta
deriving DecidableEq, Repr

/-- The filtering loop of `VectorStore.search` (vector_store.py lines
184-192): keep, in order, exactly the raw matches whose score is `>=`
the similarity threshold. -/
def searchFilter (results : List SearchMatch) (similarity_threshold : ℚ) :
    List SearchMatch :=
  results.filter (fun m => decide (similarity_threshold ≤ m.score))

/-- Body of one `VectorStore.search` attempt: `backend` is the outcome
of the underlying `index.query` call; an exception from it is re-raised
as `PineconeException("Vector search failed: ...")`, otherwise the
threshold filter is applied and the matches list (possibly empty) is
returned. -/
def searchBody (backend : Except PyExc (List SearchMatch))
    (similarity_threshold : ℚ) : Except PyExc (List SearchMatch) :=
  match backend with
  | .error e => .error (pineconeExc (("Vector search failed: ") ++ e.str))
  | .ok results => .ok (searchFilter results similarity_threshold)

/-- `VectorStore.search` with its `@retry_on_error(max_retries=3,
delay=1.0)` decorator; `backend n` is the raw result list (or failure)
of the n-th underlying query attempt. -/
def search (backend : Nat → Except PyExc (List SearchMatch))
    (similarity_threshold : ℚ) : RetryResult (List SearchMatch) :=
  retry_on_error (fun n => searchBody (backend n) similarity_threshold) 3 1
    ("search")

/-- Render `n` left-padded to two digits, for the `:.2f` fraction part. -/
def pad2 (n : Nat) : String :=
  (if n < 10 then ("0") else ("")) ++ toString n

/-- Python `f"{score:.2f}"` on a rational score. -/
def fmtScore2 (q : ℚ) : String :=
  (if q < 0 then ("-") else ("")) ++
    (toString ((round (q * 100) : ℤ).natAbs / 100)) ++ (".") ++
    pad2 ((round (q * 100) : ℤ).natAbs % 100)

/-- `VectorStore.extract_context_from_matches`: one context string per
match whose metadata carries a non-empty `text`; matches without stored
text are skipped. -/
def extract_context_from_matches (ms : List SearchMatch) : List String :=
  ms.filterMap (fun m =>
    let text := m.metadata.text.getD ("")
    if text = ("") then none
    else
      some (text ++ ("\n(Источник: ") ++ (m.metadata.source.getD ("Неизвестный источник")) ++
        (", релевантность: ") ++ fmtScore2 m.score ++ (")")))

/-- An input document for `upsert_documents`: Python-side presence of
the `id`/`embedding`/`metadata` keys is modelled with `Option`. -/
structure UpsertDoc (V M : Type) where
  id : Option String
  embedding : Option V
  metadata : Option M

/-- A prepared Pinecone vector `{'id': .., 'values': .., 'metadata': ..}`. -/
structure PineVec (V M : Type) where
  id : String
  values : V
  metadata : M

/-- Keys present on a document, for the `Invalid document format:
dict_keys(...)` message. -/
def docKeys (d : UpsertDoc V M) : List String :=
  (if d.id.isSome then [("id")] else []) ++
    (if d.embedding.isSome then [("embedding")] else []) ++
    (if d.metadata.isSome then [("metadata")] else [])

/-- The vector-preparation loop of `upsert_documents` (vector_store.py
lines 95-104): raise `PineconeException` at the first document missing
one of `id`, `embedding`, `metadata`; otherwise collect the prepared
vectors in order. -/
def buildVectors : List (UpsertDoc V M) → Except PyExc (List (PineVec V M))
  | [] => .ok []
  | d :: rest =>
      match d.id, d.embedding, d.metadata with
      | some i, some e, some m =>
          (buildVectors rest).map (fun vs => ⟨i, e, m⟩ :: vs)
      | _, _, _ =>
          .error (pineconeExc (("Invalid document format: ") ++
            String.intercalate (", ") (docKeys d)))

/-- The batching loop `for i in range(0, len(vectors), batch_size)` with
`batch_size = 100`: the successive slices `vectors[i:i+100]`, issued
sequentially. -/
def batchLoop : List α → List (List α)
  | [] => []
  | v :: rest => ((v :: rest).take 100) :: batchLoop ((v :: rest).drop 100)
termination_by l => l.length
decreasing_by
  simp [List.length_drop]
  omega

/-- The write loop of `upsert_documents` (vector_store.py lines
110-123): issue the batches sequentially through the underlying
`index.upsert`, accumulating `total_upserted += len(batch)` after each
successful write; the first write failure aborts the loop and
propagates. -/
def writeBatches (write : List (PineVec V M) → Except PyExc Unit) :
    List (List (PineVec V M)) → Nat → Except PyExc Nat
  | [], total_upserted => .ok total_upserted
  | batch :: rest, total_upserted =>
      match write batch with
      | .ok _ => writeBatches write rest (total_upserted + batch.length)
      | .error e => .error e

/-- Body of one `VectorStore.upsert_documents` attempt: empty input, a
malformed record, or a failing underlying `index.upsert` write raises
(re-wrapped by the method's own `except` block as
`PineconeException("Failed to upsert documents: ...")`); otherwise the
prepared vectors are written as sequential batches of at most 100 and
the batch sequence and `total_upserted` are returned.  `write` is the
outcome of the underlying index write for each batch. -/
def upsert_documents_body (documents : List (UpsertDoc V M))
    (write : List (PineVec V M) → Except PyExc Unit) :
    Except PyExc (List (List (PineVec V M)) × Nat) :=
  if documents.isEmpty then
    .error (pineconeExc (("Failed to upsert documents: ") ++
      ("No documents provided for upsert")))
  else
    match buildVectors documents with
    | .error e =>
        .error (pineconeExc (("Failed to upsert documents: ") ++ e.str))
    | .ok vectors =>
        let batches := batchLoop vectors
        match writeBatches write batches 0 with
        | .ok total_upserted => .ok (batches, total_upserted)
        | .error e =>
            .error (pineconeExc (("Failed to upsert documents: ") ++ e.str))

/-- `VectorStore.upsert_documents` with its `@retry_on_error(max_retries=3,
delay=1.0)` decorator; `write n` is the underlying index's response to
each batch write during the n-th attempt. -/
def upsert_documents (documents : List (UpsertDoc V M))
    (write : Nat → List (PineVec V M) → Except PyExc Unit) :
    RetryResult (List (List (PineVec V M)) × Nat) :=
  retry_on_error (fun n => upsert_documents_body documents (write n)) 3 1
    ("upsert_documents")

/-- Body of one `LLMClient.generate_embedding` attempt: the text is
stripped; if it is empty, `OpenAIException("Empty text provided for
embedding")` is raised inside the method's own `try`, caught by its
`except` and re-raised as `OpenAIException("Embedding generation failed:
...")` — all before the embedding backend is consulted.  A backend
failure is re-wrapped the same way. -/
def generate_embedding_body (text : String)
    (backend : Except PyExc (List ℚ)) : Except PyExc (List ℚ) :=
  let t := pyStrip text
  if t = ("") then
    .error (openAIExc (("Embedding generation failed: ") ++
      ("Empty text provided for embedding")))
  else
    match backend with
    | .ok emb => .ok emb
    | .error e =>
        .error (openAIExc (("Embedding generation failed: ") ++ e.str))

/-- `LLMClient.generate_embedding` with its `@retry_on_error(max_retries=3,
delay=1.0)` decorator; `backend n` is the outcome of the n-th underlying
embedding call, were one issued. -/
def generate_embedding (text : String)
    (backend : Nat → Except PyExc (List ℚ)) : RetryResult (List ℚ) :=
  retry_on_error (fun n => generate_embedding_body text (backend n)) 3 1
    ("generate_embedding")

/-- Body of one `LLMClient.generate_response` attempt: the chat model's
raw text is stripped; a model failure is re-raised as
`OpenAIException("Response generation failed: ...")`. -/
def generate_response_body (model : Except PyExc String) :
    Except PyExc String :=
  match model with
  | .ok answer => .ok (pyStrip answer)
  | .error e =>
      .error (openAIExc (("Response generation failed: ") ++ e.str))

/-- Retried `LLMClient.generate_response`. -/
def generate_response (model : Nat → Except PyExc String) :
    RetryResult String :=
  retry_on_error (fun n => generate_response_body (model n)) 3 1
    ("generate_response")

/-- The fixed disclaimer `generate_fallback_response` appends to every
fallback answer. -/
def fallbackWarning : String :=
  ("\n\n⚠️ **Внимание**: Информация по вашему запросу отсутствует в базе знаний компании. ") ++
    ("Ответ сформирован на основе общих знаний модели. ") ++
    ("Для получения точной информации обратитесь к соответствующему специалисту.")

/-- Body of one `LLMClient.generate_fallback_response` attempt: the chat
model's raw text is stripped and the fixed warning appended; a model
failure is re-raised as `OpenAIException("Fallback response generation
failed: ...")`. -/
def generate_fallback_response_body (model : Except PyExc String) :
    Except PyExc String :=
  match model with
  | .ok answer => .ok (pyStrip answer ++ fallbackWarning)
  | .error e =>
      .error (openAIExc (("Fallback response generation failed: ") ++ e.str))

/-- Retried `LLMClient.generate_fallback_response`. -/
def generate_fallback_response (model : Nat → Except PyExc String) :
    RetryResult String :=
  retry_on_error (fun n => generate_fallback_response_body (model n)) 3 1
    ("generate_fallback_response")

/-- The dictionary `BaseAgent.process_query` returns: the success shape
carries answer / response type / source statistics, the failure shape
carries the stringified error, its code value and the user message. -/
structure PQResult where
  success : Bool
  answer : Option String
  agent_type : String
  response_type : Option String
  num_sources : Option Nat
  similarity_scores : List ℚ
  sources : List (Option String)
  error : Option String
  error_code : Option String
  user_message : Option String
deriving DecidableEq, Repr

/-- The context dictionary `process_query` hands to `handle_exception`
in its `except` block (`agent_type`, `user_id`, truncated query). -/
def pqCtx (agent_type : String) (user_id : Nat) (query : String) :
    List (String × String) :=
  [(("agent_type"), agent_type), (("user_id"), toString user_id),
   (("query"), ⟨query.data.take 100⟩)]

/-- The structured error dictionary of `process_query`'s `except` block:
`success=False`, stringified error, `error_code.value`, and
`get_user_message()` (the `hasattr` checks always succeed because
`handle_exception` returns a `ChatbotException`). -/
def pqFailure (agent_type : String) (user_id : Nat) (query : String)
    (e : PyExc) : PQResult :=
  let error := handle_exception e (pqCtx agent_type user_id query)
  { success := false
    answer := none
    agent_type := agent_type
    response_type := none
    num_sources := none
    similarity_scores := []
    sources := []
    error := some error.message
    error_code := some error.error_code.value
    user_message := some error.get_user_message }

/-- The success dictionary of `process_query` (base_agent.py lines
131-142). -/
def pqSuccess (agent_type : String) (answer : String)
    (response_type : String) (context : List String)
    (ms : List SearchMatch) : PQResult :=
  { success := true
    answer := some answer
    agent_type := agent_type
    response_type := some response_type
    num_sources := some context.length
    similarity_scores := ms.map (fun m => m.score)
    sources := ms.map (fun m => m.metadata.source)
    error := none
    error_code := none
    user_message := none }

/-- Per-attempt outcomes of the external calls `process_query` makes,
one oracle per fallible collaborator. -/
structure PQOracles where
  embedBackend : Nat → Except PyExc (List ℚ)
  searchBackend : Nat → Except PyExc (List SearchMatch)
  genModel : Nat → Except PyExc String
  fbModel : Nat → Except PyExc String

/-- `BaseAgent.process_query`: embed the query (retried), search the
namespace (retried, threshold-filtered), extract context, then either a
grounded or a fallback generation (retried); every exception escaping a
step is converted by the surrounding `try`/`except` into the structured
failure dictionary. -/
def process_query (query : String) (user_id : Nat) (agent_type : String)
    (similarity_threshold : ℚ) (o : PQOracles) : PQResult :=
  match (generate_embedding query o.embedBackend).result with
  | .error e => pqFailure agent_type user_id query (.chatbot e)
  | .ok _ =>
    match (search o.searchBackend similarity_threshold).result with
    | .error e => pqFailure agent_type user_id query (.chatbot e)
    | .ok ms =>
      let context := extract_context_from_matches ms
      if context.isEmpty then
        match (generate_fallback_response o.fbModel).result with
        | .error e => pqFailure agent_type user_id query (.chatbot e)
        | .ok answer => pqSuccess agent_type answer ("fallback") context ms
      else
        match (generate_response o.genModel).result with
        | .error e => pqFailure agent_type user_id query (.chatbot e)
        | .ok answer =>
            pqSuccess agent_type answer ("knowledge_base") context ms

/-- A chunk produced by `DocumentLoader._split_text_into_chunks`: the
trimmed text plus the metadata dictionary `{**metadata, 'chunk_index':
..., 'char_count': ...}` (the caller-supplied base metadata is kept
opaque as `base`). -/
structure Chunk (μ : Type) where
  text : String
  base : μ
  chunk_index : Nat
  char_count : Nat
deriving Repr

/-- The chunker's mutable loop state: accumulated chunks, the running
buffer `current_chunk`, and the next `chunk_index`. -/
structure SplitState (μ : Type) where
  chunks : List (Chunk μ)
  current_chunk : String
  chunk_index : Nat
deriving Repr

/-- The element appended by every `chunks.append({...})` in the source:
text is the stripped buffer, `char_count` is `len(current_chunk)` of the
un-stripped buffer. -/
def closeChunk (md : μ) (st : SplitState μ) : Chunk μ :=
  ⟨pyStrip st.current_chunk, md, st.chunk_index, st.current_chunk.length⟩

/-- `re.split(r'[.!?]+', s)` on the character level: pieces between
maximal runs of sentence terminators (`inRun` records whether the
previous character belonged to such a run). -/
def splitSentAux : Bool → List Char → List Char → List (List Char)
  | _, acc, [] => [acc.reverse]
  | inRun, acc, c :: rest =>
      if c == '.' || c == '!' || c == '?' then
        if inRun then splitSentAux true acc rest
        else acc.reverse :: splitSentAux true [] rest
      else splitSentAux false (c :: acc) rest

/-- `re.split(r'[.!?]+', paragraph)` on strings. -/
def splitSentences (s : String) : List String :=
  (splitSentAux false [] s.data).map (fun l => ⟨l⟩)

/-- Python `text.split('\n\n')`: split on each non-overlapping
occurrence of a blank line, leftmost first. -/
def splitParasData : List Char → List (List Char)
  | [] => [[]]
  | '\n' :: '\n' :: rest => [] :: splitParasData rest
  | c :: rest =>
      match splitParasData rest with
      | [] => [[c]]
      | h :: t => (c :: h) :: t

/-- The paragraph list of `_split_text_into_chunks`:
`[p.strip() for p in text.strip().split('\n\n') if p.strip()]`. -/
def paragraphsOf (text : String) : List String :=
  (((splitParasData (pyStrip text).data).map (fun l => (⟨l⟩ : String))).map
    pyStrip).filter (fun p => !(p == ("")))

/-- One iteration of the sentence loop (load_documents.py lines 72-90):
skip empty sentences; append `sentence + ". "` while it fits under
`chunk_size`, otherwise close the current buffer (if non-empty) and
start a fresh buffer from the sentence — with no overlap seeding. -/
def sentStep (chunk_size : Nat) (md : μ) (st : SplitState μ)
    (sentence : String) : SplitState μ :=
  let s := pyStrip sentence
  if s = ("") then st
  else if st.current_chunk.length + s.length < chunk_size then
    { st with current_chunk := st.current_chunk ++ s ++ (". ") }
  else
    let st1 :=
      if st.current_chunk = ("") then st
      else ⟨st.chunks ++ [closeChunk md st], st.current_chunk, st.chunk_index + 1⟩
    ⟨st1.chunks, s ++ (". "), st1.chunk_index⟩

/-- One iteration of the paragraph loop (load_documents.py lines
54-110).  An oversized paragraph (`len > chunk_size`) flushes the buffer
and is packed sentence-by-sentence; otherwise the paragraph is appended
as `paragraph + "\n\n"` while it fits, and on overflow the buffer is
closed and the new buffer is seeded with the trailing `chunk_overlap`
characters of the old one. -/
def splitStep (chunk_size chunk_overlap : Nat) (md : μ) (st : SplitState μ)
    (paragraph : String) : SplitState μ :=
  if chunk_size < paragraph.length then
    let st1 :=
      if st.current_chunk = ("") then st
      else ⟨st.chunks ++ [closeChunk md st], "", st.chunk_index + 1⟩
    (splitSentences paragraph).foldl (sentStep chunk_size md) st1
  else
    if st.current_chunk.length + paragraph.length < chunk_size then
      { st with current_chunk := st.current_chunk ++ paragraph ++ ("\n\n") }
    else
      let st1 :=
        if st.current_chunk = ("") then st
        else ⟨st.chunks ++ [closeChunk md st], st.current_chunk, st.chunk_index + 1⟩
      let overlap_text :=
        if st1.current_chunk = ("") then ("")
        else sliceLast chunk_overlap st1.current_chunk
      ⟨st1.chunks, overlap_text ++ paragraph ++ ("\n\n"), st1.chunk_index⟩

/-- `DocumentLoader._split_text_into_chunks` (with the loader's
`chunk_size`/`chunk_overlap` configuration): fold the paragraph loop
over the cleaned paragraph list, then close the final non-empty
buffer. -/
def split_text_into_chunks (chunk_size chunk_overlap : Nat) (text : String)
    (md : μ) : List (Chunk μ) :=
  let st := (paragraphsOf text).foldl (splitStep chunk_size chunk_overlap md)
    ⟨[], "", 0⟩
  if st.current_chunk = ("") then st.chunks
  else st.chunks ++ [closeChunk md st]

/-! ### Basic facts about the Python-string helpers -/

theorem data_append (s t : String) : (s ++ t).data = s.data ++ t.data := by
  cases s
  cases t
  rfl

theorem length_eq_data (s : String) : s.length = s.data.length := rfl

theorem length_dropWhile_le (p : Char → Bool) (l : List Char) :
    (l.dropWhile p).length ≤ l.length := by
  induction l with
  | nil => simp [List.dropWhile]
  | cons c cs ih =>
      simp only [List.dropWhile]
      split
      · exact Nat.le_trans ih (Nat.le_succ _)
      · exact Nat.le_refl _

theorem length_rstripData_le (l : List Char) :
    (rstripData l).length ≤ l.length := by
  unfold rstripData
  calc (l.reverse.dropWhile pyWS).reverse.length
      = (l.reverse.dropWhile pyWS).length := List.length_reverse _
    _ ≤ l.reverse.length := length_dropWhile_le _ _
    _ = l.length := List.length_reverse _

theorem length_stripData_le (l : List Char) :
    (stripData l).length ≤ l.length := by
  unfold stripData
  exact Nat.le_trans (length_dropWhile_le _ _) (length_rstripData_le l)

theorem length_pyStrip_le (s : String) : (pyStrip s).length ≤ s.length :=
  length_stripData_le s.data

/-- Stripping ignores a trailing blank-line separator. -/
theorem stripData_append_sep (t : List Char) :
    stripData (t ++ ['\n', '\n']) = stripData t := by
  unfold stripData rstripData
  have h : (t ++ ['\n', '\n']).reverse = '\n' :: '\n' :: t.reverse := by
    simp
  rw [h]
  have hnl : pyWS '\n' = true := by decide
  simp [List.dropWhile, hnl]

theorem length_stripData_append_sep (t : List Char) :
    (stripData (t ++ ['\n', '\n'])).length ≤ t.length := by
  rw [stripData_append_sep]
  exact length_stripData_le t

theorem sliceLast_le (n : Nat) (s : String) : (sliceLast n s).length ≤ n := by
  unfold sliceLast
  rw [length_eq_data]
  simp only [List.length_drop]
  omega

/-! ### C1: threshold filtering inside `search` -/

/-- C1.  A successful `search` returns only matches with
`score ≥ similarity_threshold`, preserves the backend's
descending-by-score order, and when no raw match clears the threshold it
returns the empty list rather than an error. -/
theorem search_threshold_filter (results : List SearchMatch) (thr : ℚ) :
    (∀ m ∈ searchFilter results thr, thr ≤ m.score) ∧
    searchBody (.ok results) thr = .ok (searchFilter results thr) ∧
    (List.Pairwise (fun a b => b.score ≤ a.score) results →
      List.Pairwise (fun a b => b.score ≤ a.score) (searchFilter results thr)) ∧
    ((∀ m ∈ results, m.score < thr) → searchFilter results thr = []) := by
  refine ⟨?_, rfl, ?_, ?_⟩
  · intro m hm
    have := (List.mem_filter.mp hm).2
    simpa using this
  · intro h
    exact h.sublist (List.filter_sublist results)
  · intro h
    refine List.filter_eq_nil_iff.mpr ?_
    intro m hm
    simpa using not_le.mpr (h m hm)

/-- The spec's scenario: raw scores `[0.9, 0.75, 0.6]` against threshold
`0.7`. -/
def scenarioMatches : List SearchMatch :=
  [⟨("m1"), 9/10, ⟨none, none⟩⟩, ⟨("m2"), 3/4, ⟨none, none⟩⟩,
   ⟨("m3"), 3/5, ⟨none, none⟩⟩]

theorem search_threshold_filter_witness :
    (∀ m ∈ searchFilter scenarioMatches (7/10), (7/10 : ℚ) ≤ m.score) ∧
    List.Pairwise (fun a b => b.score ≤ a.score)
      (searchFilter scenarioMatches (7/10)) := by
  refine ⟨(search_threshold_filter scenarioMatches (7/10)).1, ?_⟩
  refine (search_threshold_filter scenarioMatches (7/10)).2.2.1 ?_
  simp [scenarioMatches, List.pairwise_cons]
  norm_num

/-! ### C2: the orchestrator's boundary never leaks an exception -/

/-- C2.  For every query and every combination of outcomes of the
embedding, search and generation steps, `process_query` returns a
structured dictionary: either a success, or a failure record with
`success = false`, an error code and a user message — by construction it
never re-raises. -/
theorem process_query_structured (query : String) (user_id : Nat)
    (agent_type : String) (thr : ℚ) (o : PQOracles) :
    (process_query query user_id agent_type thr o).success = true ∨
    ((process_query query user_id agent_type thr o).success = false ∧
      (∃ c, (process_query query user_id agent_type thr o).error_code = some c) ∧
      (∃ m, (process_query query user_id agent_type thr o).user_message = some m)) := by
  unfold process_query
  cases hemb : (generate_embedding query o.embedBackend).result with
  | error e => right; exact ⟨rfl, ⟨_, rfl⟩, ⟨_, rfl⟩⟩
  | ok emb =>
    cases hsr : (search o.searchBackend thr).result with
    | error e => right; exact ⟨rfl, ⟨_, rfl⟩, ⟨_, rfl⟩⟩
    | ok ms =>
      by_cases hctx : (extract_context_from_matches ms).isEmpty
      · simp only [hctx, if_true]
        cases hfb : (generate_fallback_response o.fbModel).result with
        | error e => right; exact ⟨rfl, ⟨_, rfl⟩, ⟨_, rfl⟩⟩
        | ok a => left; rfl
      · simp only [hctx, if_false]
        cases hg : (generate_response o.genModel).result with
        | error e => right; exact ⟨rfl, ⟨_, rfl⟩, ⟨_, rfl⟩⟩
        | ok a => left; rfl

/-! ### C9: whitespace-only input produces zero chunks -/

theorem dropWhile_eq_nil_of_all (p : Char → Bool) (l : List Char)
    (h : ∀ c ∈ l, p c = true) : l.dropWhile p = [] := by
  induction l with
  | nil => rfl
  | cons c cs ih =>
      simp only [List.dropWhile, h c (List.mem_cons_self c cs)]
      exact ih (fun x hx => h x (List.mem_cons_of_mem c hx))

theorem stripData_eq_nil_of_all (l : List Char)
    (h : ∀ c ∈ l, pyWS c = true) : stripData l = [] := by
  unfold stripData rstripData
  rw [dropWhile_eq_nil_of_all pyWS l.reverse
    (fun c hc => h c (List.mem_reverse.mp hc))]
  rfl

/-- C9.  Empty or whitespace-only input yields an empty chunk list, with
no error, for every chunker configuration and base metadata. -/
theorem whitespace_input_zero_chunks (chunk_size chunk_overlap : Nat)
    (text : String) (md : μ) (h : ∀ c ∈ text.data, pyWS c = true) :
    split_text_into_chunks chunk_size chunk_overlap text md = [] := by
  have hstrip : pyStrip text = ("") := by
    unfold pyStrip
    rw [stripData_eq_nil_of_all text.data h]
  unfold split_text_into_chunks paragraphsOf
  rw [hstrip]
  rfl

theorem whitespace_input_zero_chunks_witness :
    split_text_into_chunks 1000 200 ("  \n \t ") () = [] :=
  whitespace_input_zero_chunks 1000 200 ("  \n \t ") () (by decide)

/-! ### The retry wrapper at `max_retries = 3` -/

/-- An operation that succeeds on its first attempt is invoked once,
with no sleeps. -/
theorem retry3_ok_first (op : Nat → Except PyExc α) (d : ℚ) (f : String)
    (a : α) (h : op 0 = .ok a) : retry_on_error op 3 d f = ⟨.ok a, 1, []⟩ := by
  simp [retry_on_error, retryAux, h]

/-- An operation that fails on all three attempts is invoked exactly 3
times, with linear-backoff sleeps `d·1, d·2` between consecutive
attempts and none after the last, and the wrapper raises
`handle_exception(last_exception, {function, max_retries, attempts})`. -/
theorem retry3_all_fail (op : Nat → Except PyExc α) (d : ℚ) (f : String)
    (e0 e1 e2 : PyExc) (h0 : op 0 = .error e0) (h1 : op 1 = .error e1)
    (h2 : op 2 = .error e2) :
    retry_on_error op 3 d f =
      ⟨.error (handle_exception e2 (retry_ctx f 3)), 3, [d * 1, d * 2]⟩ := by
  simp [retry_on_error, retryAux, h0, h1, h2, handle_exception_opt]

/-! ### C3: what the wrapped failure actually carries -/

/-- An operation failing every attempt with a `PineconeException`, as
every `VectorStore` call site does. -/
def boomOp : Nat → Except PyExc Unit := fun _ => .error (pineconeExc ("boom"))

/-- C3 counterexample.  With `max_retries = 3`, `boomOp` is indeed
invoked 3 times, but the failure finally raised is the last underlying
`ChatbotException` returned *unchanged* by `handle_exception`: its
details dictionary is empty, so it carries neither the operation name
nor the attempt count the claim promises. -/
theorem retry_wrapped_failure_counterexample :
    (retry_on_error boomOp 3 1 ("vector_search")).calls = 3 ∧
    (retry_on_error boomOp 3 1 ("vector_search")).result =
      .error ⟨("boom"), .PINECONE_API_ERROR, []⟩ ∧
    (ChatbotError.mk ("boom") .PINECONE_API_ERROR []).details.lookup ("function") = none ∧
    (ChatbotError.mk ("boom") .PINECONE_API_ERROR []).details.lookup ("attempts") = none := by
  have h := retry3_all_fail boomOp 1 ("vector_search") _ _ _ rfl rfl rfl
  rw [h]
  exact ⟨rfl, rfl, rfl, rfl⟩

/-- C3 (amended).  An operation failing on all attempts is invoked
exactly 3 times with sleeps `delay·1, delay·2` between consecutive
attempts (none after the last), and the wrapper raises
`handle_exception` of the last underlying error: when that error is not
a `ChatbotException` the raised failure's details carry the operation
name, `max_retries`, `attempts` and the original error; when it already
is a `ChatbotException` it is re-raised unchanged, without the operation
name or attempt count. -/
theorem retry_exhaustion (op : Nat → Except PyExc α) (delay : ℚ)
    (fname : String) (e0 e1 e2 : PyExc) (h0 : op 0 = .error e0)
    (h1 : op 1 = .error e1) (h2 : op 2 = .error e2) :
    retry_on_error op 3 delay fname =
      ⟨.error (handle_exception e2 (retry_ctx fname 3)), 3,
        [delay * 1, delay * 2]⟩ ∧
    (∀ ce, e2 = .chatbot ce → handle_exception e2 (retry_ctx fname 3) = ce) ∧
    (∀ msg ty, e2 = .other msg ty →
      (handle_exception e2 (retry_ctx fname 3)).details =
        retry_ctx fname 3 ++ [(("original_error"), msg), (("error_type"), ty)]) := by
  refine ⟨retry3_all_fail op delay fname e0 e1 e2 h0 h1 h2, ?_, ?_⟩
  · intro ce hce
    rw [hce]
    rfl
  · intro msg ty hty
    rw [hty]
    rfl

/-- An operation failing every attempt with a plain (non-Chatbot)
exception. -/
def timeoutOp : Nat → Except PyExc Unit :=
  fun _ => .error (.other ("timed out") ("TimeoutError"))

theorem retry_exhaustion_witness :
    retry_on_error timeoutOp 3 1 ("generate_embedding") =
      ⟨.error (handle_exception (.other ("timed out") ("TimeoutError"))
        (retry_ctx ("generate_embedding") 3)), 3, [1 * 1, 1 * 2]⟩ :=
  (retry_exhaustion timeoutOp 1 ("generate_embedding") _ _ _ rfl rfl rfl).1

/-! ### C4: the empty query is not failed fast -/

/-- C4 counterexample.  On the empty query the embedding backend is
never reached, but the raised error is an OpenAI-provider error (E101),
not an InvalidInput kind (E402), and far from being surfaced
immediately the operation is retried: 3 invocations with backoff sleeps
of 1·1 and 1·2 seconds. -/
theorem empty_query_fail_fast_counterexample :
    (generate_embedding ("") (fun _ => .ok [])).calls = 3 ∧
    (generate_embedding ("") (fun _ => .ok [])).sleeps = [1, 2] ∧
    (generate_embedding ("") (fun _ => .ok [])).result =
      .error ⟨("Embedding generation failed: Empty text provided for embedding"),
        .OPENAI_API_ERROR, []⟩ ∧
    ErrorCode.OPENAI_API_ERROR ≠ ErrorCode.INVALID_QUERY := by
  have h := retry3_all_fail
    (fun n => generate_embedding_body ("") ((fun _ => .ok []) n)) 1
    ("generate_embedding") _ _ _ rfl rfl rfl
  refine ⟨?_, ?_, ?_, by decide⟩
  · rw [generate_embedding, h]
  · rw [generate_embedding, h]
    norm_num
  · rw [generate_embedding, h]
    rfl

/-- C4 (amended).  A query that is empty after trimming makes
`generate_embedding` raise before any network call — the result is the
same for every backend — but the failure is an E101 OpenAI error, the
body is retried 3 times, and backoff sleeps `1·1, 1·2` are performed. -/
theorem empty_query_no_network (text : String)
    (backend : Nat → Except PyExc (List ℚ)) (h : pyStrip text = ("")) :
    (generate_embedding text backend).result =
      .error ⟨("Embedding generation failed: Empty text provided for embedding"),
        .OPENAI_API_ERROR, []⟩ ∧
    (generate_embedding text backend).calls = 3 ∧
    (generate_embedding text backend).sleeps = [1 * 1, 1 * 2] ∧
    ∀ backend', generate_embedding text backend' = generate_embedding text backend := by
  have hbody : ∀ b : Except PyExc (List ℚ), generate_embedding_body text b =
      .error (openAIExc (("Embedding generation failed: ") ++
        ("Empty text provided for embedding"))) := by
    intro b
    simp [generate_embedding_body, h]
  have hfix : ∀ b : Nat → Except PyExc (List ℚ), generate_embedding text b =
      ⟨.error ⟨("Embedding generation failed: Empty text provided for embedding"),
        .OPENAI_API_ERROR, []⟩, 3, [1 * 1, 1 * 2]⟩ := by
    intro b
    have := retry3_all_fail (fun n => generate_embedding_body text (b n)) 1
      ("generate_embedding") _ _ _ (hbody (b 0)) (hbody (b 1)) (hbody (b 2))
    rw [generate_embedding, this]
    rfl
  refine ⟨?_, ?_, ?_, ?_⟩
  · rw [hfix backend]
  · rw [hfix backend]
  · rw [hfix backend]
  · intro b'
    rw [hfix backend, hfix b']

theorem empty_query_no_network_witness :
    (generate_embedding (" ") (fun _ => .ok [])).calls = 3 ∧
    (∀ b', generate_embedding (" ") b' =
      generate_embedding (" ") (fun _ => .ok [])) := by
  exact ⟨(empty_query_no_network (" ") _ (by decide)).2.1,
    (empty_query_no_network (" ") _ (by decide)).2.2.2⟩

/-! ### C5: the fallback branch of `process_query` -/

/-- C5.  When the search finds no match above the threshold (and the
other collaborators succeed on their first attempt), `process_query`
succeeds with `response_type = "fallback"`, `num_sources = 0`, and an
answer that ends with the fixed not-grounded disclaimer. -/
theorem fallback_on_no_matches (query : String) (user_id : Nat)
    (agent_type : String) (thr : ℚ) (o : PQOracles) (emb : List ℚ)
    (raw : List SearchMatch) (ans : String)
    (hq : ¬ pyStrip query = (""))
    (he : o.embedBackend 0 = .ok emb)
    (hs : o.searchBackend 0 = .ok raw)
    (hlow : ∀ m ∈ raw, m.score < thr)
    (hf : o.fbModel 0 = .ok ans) :
    process_query query user_id agent_type thr o =
      pqSuccess agent_type (pyStrip ans ++ fallbackWarning) ("fallback") [] [] ∧
    (process_query query user_id agent_type thr o).success = true ∧
    (process_query query user_id agent_type thr o).response_type = some ("fallback") ∧
    (process_query query user_id agent_type thr o).num_sources = some 0 ∧
    ∃ pre, (process_query query user_id agent_type thr o).answer =
      some (pre ++ fallbackWarning) := by
  have hemb : (generate_embedding query o.embedBackend).result = .ok emb := by
    have hb : generate_embedding_body query (o.embedBackend 0) = .ok emb := by
      simp [generate_embedding_body, hq, he]
    rw [generate_embedding, retry3_ok_first _ 1 _ _ hb]
  have hfilter : searchFilter raw thr = [] := by
    refine List.filter_eq_nil_iff.mpr ?_
    intro m hm
    simpa using not_le.mpr (hlow m hm)
  have hsearch : (search o.searchBackend thr).result = .ok [] := by
    have hb : searchBody (o.searchBackend 0) thr = .ok [] := by
      rw [hs, searchBody, hfilter]
    rw [search, retry3_ok_first _ 1 _ _ hb]
  have hfb : (generate_fallback_response o.fbModel).result =
      .ok (pyStrip ans ++ fallbackWarning) := by
    have hb : generate_fallback_response_body (o.fbModel 0) =
        .ok (pyStrip ans ++ fallbackWarning) := by
      rw [hf, generate_fallback_response_body]
    rw [generate_fallback_response, retry3_ok_first _ 1 _ _ hb]
  have hpq : process_query query user_id agent_type thr o =
      pqSuccess agent_type (pyStrip ans ++ fallbackWarning) ("fallback") [] [] := by
    unfold process_query
    rw [hemb, hsearch, hfb]
    rfl
  refine ⟨hpq, ?_, ?_, ?_, ⟨pyStrip ans, ?_⟩⟩ <;> rw [hpq] <;> rfl

/-- Concrete collaborators: a stored match scored 0.5 against threshold
0.7, and a fallback model answer. -/
def c5Oracles : PQOracles :=
  ⟨fun _ => .ok [], fun _ => .ok [⟨("d1"), 1/2, ⟨some ("t"), none⟩⟩],
   fun _ => .ok (""), fun _ => .ok ("general answer")⟩

theorem fallback_on_no_matches_witness :
    (process_query ("q") 1 ("finance") (7/10) c5Oracles).response_type =
      some ("fallback") ∧
    (process_query ("q") 1 ("finance") (7/10) c5Oracles).num_sources = some 0 := by
  have hlow : ∀ m ∈ [(⟨("d1"), 1/2, ⟨some ("t"), none⟩⟩ : SearchMatch)],
      m.score < (7/10 : ℚ) := by
    intro m hm
    rw [List.mem_singleton.mp hm]
    norm_num
  exact ⟨(fallback_on_no_matches ("q") 1 ("finance") (7/10) c5Oracles [] _
      ("general answer") (by decide) rfl rfl hlow rfl).2.2.1,
    (fallback_on_no_matches ("q") 1 ("finance") (7/10) c5Oracles [] _
      ("general answer") (by decide) rfl rfl hlow rfl).2.2.2.1⟩

/-! ### C10: context extraction skips matches without stored text -/

/-- C10.  `extract_context_from_matches` produces exactly one context
string per match with non-empty stored text; when the (non-empty) match
set returned by search consists entirely of matches without stored
text, `process_query` takes the fallback branch with `num_sources = 0`
even though the similarity-score list records every returned match. -/
theorem context_extraction_contract (ms : List SearchMatch) (query : String)
    (user_id : Nat) (agent_type : String) (thr : ℚ) (o : PQOracles)
    (emb : List ℚ) (raw : List SearchMatch) (ans : String)
    (hq : ¬ pyStrip query = ("")) (he : o.embedBackend 0 = .ok emb)
    (hs : o.searchBackend 0 = .ok raw)
    (hkeep : ∀ m ∈ raw, thr ≤ m.score)
    (htextless : ∀ m ∈ raw, m.metadata.text.getD ("") = (""))
    (hf : o.fbModel 0 = .ok ans) :
    (extract_context_from_matches ms).length =
      ms.countP (fun m => !(m.metadata.text.getD ("") == (""))) ∧
    process_query query user_id agent_type thr o =
      pqSuccess agent_type (pyStrip ans ++ fallbackWarning) ("fallback") [] raw ∧
    (process_query query user_id agent_type thr o).response_type = some ("fallback") ∧
    (process_query query user_id agent_type thr o).num_sources = some 0 ∧
    (process_query query user_id agent_type thr o).similarity_scores =
      raw.map (fun m => m.score) := by
  have hcount : ∀ l : List SearchMatch, (extract_context_from_matches l).length =
      l.countP (fun m => !(m.metadata.text.getD ("") == (""))) := by
    intro l
    induction l with
    | nil => rfl
    | cons m rest ih =>
        unfold extract_context_from_matches at ih ⊢
        simp only [List.filterMap_cons, List.countP_cons]
        by_cases h : m.metadata.text.getD ("") = ("")
        · simp [h, ih]
        · simp [h, ih]
  have hemb : (generate_embedding query o.embedBackend).result = .ok emb := by
    have hb : generate_embedding_body query (o.embedBackend 0) = .ok emb := by
      simp [generate_embedding_body, hq, he]
    rw [generate_embedding, retry3_ok_first _ 1 _ _ hb]
  have hfilter : searchFilter raw thr = raw := by
    refine List.filter_eq_self.mpr ?_
    intro m hm
    simpa using hkeep m hm
  have hsearch : (search o.searchBackend thr).result = .ok raw := by
    have hb : searchBody (o.searchBackend 0) thr = .ok raw := by
      rw [hs, searchBody, hfilter]
    rw [search, retry3_ok_first _ 1 _ _ hb]
  have hextract : extract_context_from_matches raw = [] := by
    unfold extract_context_from_matches
    refine List.filterMap_eq_nil_iff.mpr ?_
    intro m hm
    simp [htextless m hm]
  have hfb : (generate_fallback_response o.fbModel).result =
      .ok (pyStrip ans ++ fallbackWarning) := by
    have hb : generate_fallback_response_body (o.fbModel 0) =
        .ok (pyStrip ans ++ fallbackWarning) := by
      rw [hf, generate_fallback_response_body]
    rw [generate_fallback_response, retry3_ok_first _ 1 _ _ hb]
  have hpq : process_query query user_id agent_type thr o =
      pqSuccess agent_type (pyStrip ans ++ fallbackWarning) ("fallback") [] raw := by
    unfold process_query
    simp only [hemb, hsearch, hfb, hextract, List.isEmpty_nil, if_true]
  refine ⟨hcount ms, hpq, ?_, ?_, ?_⟩ <;> rw [hpq] <;> rfl

/-- Concrete collaborators: one returned match scored 0.9 whose metadata
has no stored text. -/
def c10Oracles : PQOracles :=
  ⟨fun _ => .ok [], fun _ => .ok [⟨("d9"), 9/10, ⟨none, some ("doc.txt")⟩⟩],
   fun _ => .ok (""), fun _ => .ok ("general answer")⟩

theorem context_extraction_contract_witness :
    (process_query ("q") 1 ("legal") (7/10) c10Oracles).num_sources = some 0 ∧
    (process_query ("q") 1 ("legal") (7/10) c10Oracles).similarity_scores =
      [(9/10 : ℚ)] := by
  have hraw : ∀ m ∈ [(⟨("d9"), 9/10, ⟨none, some ("doc.txt")⟩⟩ : SearchMatch)],
      (7/10 : ℚ) ≤ m.score := by
    intro m hm
    rw [List.mem_singleton.mp hm]
    norm_num
  have htl : ∀ m ∈ [(⟨("d9"), 9/10, ⟨none, some ("doc.txt")⟩⟩ : SearchMatch)],
      m.metadata.text.getD ("") = ("") := by
    intro m hm
    rw [List.mem_singleton.mp hm]
    rfl
  exact ⟨(context_extraction_contract [] ("q") 1 ("legal") (7/10) c10Oracles []
      _ ("general answer") (by decide) rfl rfl hraw htl rfl).2.2.2.1,
    (context_extraction_contract [] ("q") 1 ("legal") (7/10) c10Oracles []
      _ ("general answer") (by decide) rfl rfl hraw htl rfl).2.2.2.2⟩

/-! ### C6: chunk indices and char counts -/

/-- Loop invariant of the chunker: indices enumerate positions, the
running index equals the chunk count, and every chunk's trimmed text is
no longer than its recorded `char_count`. -/
def chunkInv (st : SplitState μ) : Prop :=
  st.chunks.map Chunk.chunk_index = List.range st.chunks.length ∧
  st.chunk_index = st.chunks.length ∧
  ∀ c ∈ st.chunks, c.text.length ≤ c.char_count

theorem closeChunk_cc (md : μ) (st : SplitState μ) :
    (closeChunk md st).text.length ≤ (closeChunk md st).char_count :=
  length_pyStrip_le st.current_chunk

/-- Closing the buffer as a chunk and bumping the index preserves the
invariant, whatever the buffer is reset to. -/
theorem chunkInv_emit (md : μ) (st : SplitState μ) (cur' : String)
    (h : chunkInv st) :
    chunkInv ⟨st.chunks ++ [closeChunk md st], cur', st.chunk_index + 1⟩ := by
  obtain ⟨h1, h2, h3⟩ := h
  refine ⟨?_, ?_, ?_⟩
  · simp only [List.map_append, List.length_append, List.map_cons, List.map_nil,
      List.length_cons, List.length_nil, h1]
    rw [List.range_succ]
    simp [closeChunk, h2]
  · simp [h2]
  · intro c hc
    rcases List.mem_append.mp hc with hold | hnew
    · exact h3 c hold
    · rw [List.mem_singleton.mp hnew]
      exact closeChunk_cc md st

/-- Replacing the buffer without touching chunks or index preserves the
invariant. -/
theorem chunkInv_setCur (st : SplitState μ) (cur' : String)
    (h : chunkInv st) : chunkInv ⟨st.chunks, cur', st.chunk_index⟩ := h

theorem foldl_inv_of (f : SplitState μ → String → SplitState μ)
    (P : SplitState μ → Prop) (hf : ∀ st s, P st → P (f st s)) :
    ∀ (l : List String) (st : SplitState μ), P st → P (l.foldl f st)
  | [], _, h => h
  | s :: l, st, h => foldl_inv_of f P hf l (f st s) (hf st s h)

theorem sentStep_chunkInv (chunk_size : Nat) (md : μ) (st : SplitState μ)
    (s : String) (h : chunkInv st) : chunkInv (sentStep chunk_size md st s) := by
  unfold sentStep
  by_cases h0 : pyStrip s = ("")
  · simpa [h0]
  · simp only [h0, if_neg, if_false]
    by_cases h1 : st.current_chunk.length + (pyStrip s).length < chunk_size
    · simpa [h1] using chunkInv_setCur st _ h
    · simp only [h1, if_false]
      by_cases h2 : st.current_chunk = ("")
      · simpa [h2] using chunkInv_setCur st _ h
      · simpa [h2] using
          chunkInv_setCur ⟨st.chunks ++ [closeChunk md st], st.current_chunk,
            st.chunk_index + 1⟩ _ (chunkInv_emit md st st.current_chunk h)

theorem splitStep_chunkInv (chunk_size chunk_overlap : Nat) (md : μ)
    (st : SplitState μ) (p : String) (h : chunkInv st) :
    chunkInv (splitStep chunk_size chunk_overlap md st p) := by
  unfold splitStep
  by_cases h1 : chunk_size < p.length
  · simp only [h1, if_true]
    refine foldl_inv_of _ chunkInv
      (fun st s hs => sentStep_chunkInv chunk_size md st s hs)
      (splitSentences p) _ ?_
    by_cases h2 : st.current_chunk = ("")
    · simpa [h2]
    · simpa [h2] using chunkInv_emit md st ("") h
  · simp only [h1, if_false]
    by_cases h2 : st.current_chunk.length + p.length < chunk_size
    · simpa [h2] using chunkInv_setCur st _ h
    · simp only [h2, if_false]
      by_cases h3 : st.current_chunk = ("")
      · simpa [h3] using chunkInv_setCur st _ h
      · simpa [h3] using
          chunkInv_setCur ⟨st.chunks ++ [closeChunk md st], st.current_chunk,
            st.chunk_index + 1⟩ _ (chunkInv_emit md st st.current_chunk h)

/-- C6 counterexample.  On the input `"ab"` the chunker produces one
chunk whose (trimmed) text is `"ab"` of length 2, while `char_count` is
4 — the length of the un-trimmed buffer `"ab\n\n"` — so `char_count`
does not equal the length of the chunk's trimmed text. -/
theorem chunk_char_count_counterexample :
    (split_text_into_chunks 1000 200 ("ab") ()).map
      (fun c => (c.text, c.chunk_index, c.char_count)) = [(("ab"), 0, 4)] ∧
    ¬ (∀ c ∈ split_text_into_chunks 1000 200 ("ab") (),
        c.char_count = c.text.length) := by
  exact ⟨rfl, by decide⟩

/-- C6 (amended).  Each produced chunk carries `chunk_index` starting at
0 and incrementing by 1 in production order; `char_count` records the
length of the chunk's buffer *before* trimming, so it is an upper bound
on — but not in general equal to — the length of the trimmed `text`
field. -/
theorem chunk_metadata (chunk_size chunk_overlap : Nat) (text : String)
    (md : μ) :
    (split_text_into_chunks chunk_size chunk_overlap text md).map
      Chunk.chunk_index =
      List.range (split_text_into_chunks chunk_size chunk_overlap text md).length ∧
    ∀ c ∈ split_text_into_chunks chunk_size chunk_overlap text md,
      c.text.length ≤ c.char_count := by
  have hinit : chunkInv (⟨[], "", 0⟩ : SplitState μ) := ⟨rfl, rfl, by simp⟩
  have hfold : chunkInv ((paragraphsOf text).foldl
      (splitStep chunk_size chunk_overlap md) ⟨[], "", 0⟩) :=
    foldl_inv_of _ chunkInv
      (fun st s hs => splitStep_chunkInv chunk_size chunk_overlap md st s hs)
      (paragraphsOf text) _ hinit
  simp only [split_text_into_chunks]
  set st := (paragraphsOf text).foldl (splitStep chunk_size chunk_overlap md)
    (⟨[], "", 0⟩ : SplitState μ) with hst
  by_cases hcur : st.current_chunk = ("")
  · rw [if_pos hcur]
    exact ⟨hfold.1, hfold.2.2⟩
  · rw [if_neg hcur]
    exact ⟨(chunkInv_emit md st ("") hfold).1, (chunkInv_emit md st ("") hfold).2.2⟩

/-! ### C7: how large chunks can really get -/

/-- Along the paragraph path the buffer is either empty or of the form
`t ++ "\n\n"` with `t` no longer than `chunk_size + chunk_overlap`. -/
def bufBounded (chunk_size chunk_overlap : Nat) (s : String) : Prop :=
  s = ("") ∨ ∃ t, s.data = t ++ ['\n', '\n'] ∧
    t.length ≤ chunk_size + chunk_overlap

/-- Buffer invariant plus the bound on every already-produced chunk. -/
def boundInv (chunk_size chunk_overlap : Nat) (st : SplitState μ) : Prop :=
  bufBounded chunk_size chunk_overlap st.current_chunk ∧
  ∀ c ∈ st.chunks, c.text.length ≤ chunk_size + chunk_overlap

theorem closeChunk_le_bound (chunk_size chunk_overlap : Nat) (md : μ)
    (st : SplitState μ)
    (h : bufBounded chunk_size chunk_overlap st.current_chunk) :
    (closeChunk md st).text.length ≤ chunk_size + chunk_overlap := by
  rcases h with he | ⟨t, ht, hlen⟩
  · have : (closeChunk md st).text.length = 0 := by
      simp [closeChunk, he, pyStrip, stripData, rstripData, length_eq_data]
    omega
  · have : (closeChunk md st).text.length = (stripData (t ++ ['\n', '\n'])).length := by
      simp [closeChunk, pyStrip, length_eq_data, ht]
    rw [this]
    exact Nat.le_trans (length_stripData_append_sep t) hlen

theorem splitStep_bound (chunk_size chunk_overlap : Nat) (md : μ)
    (st : SplitState μ) (p : String) (hp : p.length ≤ chunk_size)
    (h : boundInv chunk_size chunk_overlap st) :
    boundInv chunk_size chunk_overlap (splitStep chunk_size chunk_overlap md st p) := by
  obtain ⟨hbuf, hch⟩ := h
  have edata : ∀ s : String, s.data.length = s.length := fun _ => rfl
  unfold splitStep
  rw [if_neg (not_lt.mpr hp)]
  by_cases h2 : st.current_chunk.length + p.length < chunk_size
  · rw [if_pos h2]
    refine ⟨Or.inr ⟨st.current_chunk.data ++ p.data, ?_, ?_⟩, hch⟩
    · rw [data_append, data_append]
    · rw [List.length_append, edata, edata]
      omega
  · rw [if_neg h2]
    by_cases h3 : st.current_chunk = ("")
    · simp only [h3, eq_self_iff_true, if_true]
      refine ⟨Or.inr ⟨p.data, ?_, by rw [edata]; omega⟩, hch⟩
      rw [data_append, data_append]
      rfl
    · simp only [if_neg h3]
      constructor
      · refine Or.inr ⟨(sliceLast chunk_overlap st.current_chunk).data ++ p.data, ?_, ?_⟩
        · rw [data_append, data_append]
        · rw [List.length_append, edata, edata]
          have hs := sliceLast_le chunk_overlap st.current_chunk
          omega
      · intro c hc
        rcases List.mem_append.mp hc with hold | hnew
        · exact hch c hold
        · rw [List.mem_singleton.mp hnew]
          exact closeChunk_le_bound chunk_size chunk_overlap md st hbuf

theorem foldl_inv_mem (f : SplitState μ → String → SplitState μ)
    (P : SplitState μ → Prop) :
    ∀ (l : List String), (∀ s ∈ l, ∀ st, P st → P (f st s)) →
      ∀ st, P st → P (l.foldl f st)
  | [], _, _, h => h
  | s :: l, hf, st, h =>
      foldl_inv_mem f P l (fun x hx => hf x (List.mem_cons_of_mem s hx)) (f st s)
        (hf s (List.mem_cons_self s l) st h)

/-- Chunk-size bound for any configuration, provided no single paragraph
exceeds `chunk_size` (so the sentence path is never taken): overlap
seeding lets chunks grow up to `chunk_size + chunk_overlap`, and no
further. -/
theorem chunk_size_bound_general (chunk_size chunk_overlap : Nat)
    (text : String) (md : μ)
    (h : ∀ p ∈ paragraphsOf text, p.length ≤ chunk_size) :
    ∀ c ∈ split_text_into_chunks chunk_size chunk_overlap text md,
      c.text.length ≤ chunk_size + chunk_overlap := by
  have hfold : boundInv chunk_size chunk_overlap
      ((paragraphsOf text).foldl (splitStep chunk_size chunk_overlap md)
        ⟨[], "", 0⟩) :=
    foldl_inv_mem _ _ (paragraphsOf text)
      (fun p hp st hst => splitStep_bound chunk_size chunk_overlap md st p (h p hp) hst)
      _ ⟨Or.inl rfl, by simp⟩
  simp only [split_text_into_chunks]
  set st := (paragraphsOf text).foldl (splitStep chunk_size chunk_overlap md)
    (⟨[], "", 0⟩ : SplitState μ) with hst
  by_cases hcur : st.current_chunk = ("")
  · rw [if_pos hcur]
    exact hfold.2
  · rw [if_neg hcur]
    intro c hc
    rcases List.mem_append.mp hc with hold | hnew
    · exact hfold.2 c hold
    · rw [List.mem_singleton.mp hnew]
      exact closeChunk_le_bound chunk_size chunk_overlap md st hfold.1

/-- Two consecutive 900-character paragraphs. -/
def cexChunkText : String :=
  ⟨List.replicate 900 'a' ++ '\n' :: '\n' :: List.replicate 900 'b'⟩

set_option maxRecDepth 40000 in
set_option maxHeartbeats 2000000 in
/-- C7 counterexample.  With `chunk_size = 1000, chunk_overlap = 200`,
two 900-character paragraphs produce chunk texts of lengths 900 and
1100: the second chunk's buffer was seeded with the 200-character
overlap of the first, and its text exceeds `chunk_size`. -/
theorem chunk_size_counterexample :
    (split_text_into_chunks 1000 200 cexChunkText ()).map
      (fun c => c.text.length) = [900, 1100] ∧
    ¬ (∀ c ∈ split_text_into_chunks 1000 200 cexChunkText (),
        c.text.length ≤ 1000) := by
  exact ⟨by decide, by decide⟩

/-- C7 (amended).  With `chunk_size = 1000, chunk_overlap = 200` and no
paragraph longer than `chunk_size`, every produced chunk's text has
length at most `chunk_size + chunk_overlap = 1200`; the `≤ chunk_size`
bound of the claim fails for overlap-seeded chunks. -/
theorem chunk_size_bounded (text : String) (md : μ)
    (h : ∀ p ∈ paragraphsOf text, p.length ≤ 1000) :
    ∀ c ∈ split_text_into_chunks 1000 200 text md, c.text.length ≤ 1200 :=
  chunk_size_bound_general 1000 200 text md h

theorem chunk_size_bounded_witness :
    (split_text_into_chunks 1000 200 ("ab") ()).length = 1 ∧
    ∀ c ∈ split_text_into_chunks 1000 200 ("ab") (), c.text.length ≤ 1200 :=
  ⟨rfl, chunk_size_bounded ("ab") () (by decide)⟩

/-! ### C8: the upsert contract -/

/-- A document is valid when it carries all three required fields. -/
def docValid (d : UpsertDoc V M) : Prop :=
  d.id.isSome ∧ d.embedding.isSome ∧ d.metadata.isSome

theorem buildVectors_ok (documents : List (UpsertDoc V M))
    (h : ∀ d ∈ documents, docValid d) :
    ∃ vectors, buildVectors documents = .ok vectors ∧
      vectors.length = documents.length := by
  induction documents with
  | nil => exact ⟨[], rfl, rfl⟩
  | cons d rest ih =>
      obtain ⟨hid, hemb, hmd⟩ := h d (List.mem_cons_self d rest)
      obtain ⟨i, hi⟩ := Option.isSome_iff_exists.mp hid
      obtain ⟨e, he⟩ := Option.isSome_iff_exists.mp hemb
      obtain ⟨m, hm⟩ := Option.isSome_iff_exists.mp hmd
      obtain ⟨vs, hvs, hlen⟩ := ih (fun x hx => h x (List.mem_cons_of_mem d hx))
      refine ⟨⟨i, e, m⟩ :: vs, ?_, by simp [hlen]⟩
      simp [buildVectors, hi, he, hm, hvs, Except.map]

theorem buildVectors_invalid (documents : List (UpsertDoc V M))
    (h : ∃ d ∈ documents, ¬ docValid d) :
    ∃ msg, buildVectors documents = .error (pineconeExc msg) := by
  induction documents with
  | nil =>
      obtain ⟨d, hd, _⟩ := h
      cases hd
  | cons d rest ih =>
      by_cases hd : docValid d
      · obtain ⟨hid, hemb, hmd⟩ := hd
        obtain ⟨i, hi⟩ := Option.isSome_iff_exists.mp hid
        obtain ⟨e, he⟩ := Option.isSome_iff_exists.mp hemb
        obtain ⟨m, hm⟩ := Option.isSome_iff_exists.mp hmd
        have hrest : ∃ x ∈ rest, ¬ docValid x := by
          obtain ⟨x, hx, hnx⟩ := h
          rcases List.mem_cons.mp hx with hx | hx
          · exact absurd (hx ▸ ⟨hid, hemb, hmd⟩) hnx
          · exact ⟨x, hx, hnx⟩
        obtain ⟨msg, hmsg⟩ := ih hrest
        refine ⟨msg, ?_⟩
        simp [buildVectors, hi, he, hm, hmsg, Except.map]
      · obtain ⟨oid, oemb, omd⟩ := d
        cases oid <;> cases oemb <;> cases omd
        all_goals first
          | exact ⟨_, rfl⟩
          | exact absurd ⟨rfl, rfl, rfl⟩ hd

theorem batchLoop_flatten_aux :
    ∀ (n : Nat) (l : List α), l.length ≤ n → (batchLoop l).flatten = l
  | _, [], _ => by simp [batchLoop]
  | 0, v :: rest, h => by simp at h
  | n + 1, v :: rest, h => by
      rw [batchLoop]
      have hd : ((v :: rest).drop 100).length ≤ n := by
        simp only [List.length_drop, List.length_cons]
        simp only [List.length_cons] at h
        omega
      simp only [List.flatten_cons]
      rw [batchLoop_flatten_aux n _ hd, List.take_append_drop]

/-- The sequential batches reassemble exactly the prepared vectors. -/
theorem batchLoop_flatten (l : List α) : (batchLoop l).flatten = l :=
  batchLoop_flatten_aux l.length l (Nat.le_refl _)

theorem batchLoop_le_aux :
    ∀ (n : Nat) (l : List α), l.length ≤ n → ∀ b ∈ batchLoop l, b.length ≤ 100
  | _, [], _ => by simp [batchLoop]
  | 0, v :: rest, h => by simp at h
  | n + 1, v :: rest, h => by
      rw [batchLoop]
      intro b hb
      rcases List.mem_cons.mp hb with hb | hb
      · rw [hb]
        exact List.length_take_le 100 (v :: rest)
      · refine batchLoop_le_aux n _ ?_ b hb
        simp only [List.length_drop, List.length_cons]
        simp only [List.length_cons] at h
        omega

/-- Every batch holds at most 100 records. -/
theorem batchLoop_le (l : List α) : ∀ b ∈ batchLoop l, b.length ≤ 100 :=
  batchLoop_le_aux l.length l (Nat.le_refl _)

/-- `total_upserted` — the sum of the batch sizes — is the number of
prepared vectors. -/
theorem batchLoop_sum (l : List α) :
    ((batchLoop l).map List.length).sum = l.length := by
  rw [← List.length_flatten, batchLoop_flatten]

/-- When every underlying batch write succeeds, the sequential write
loop returns the accumulated total of the batch sizes. -/
theorem writeBatches_ok (write : List (PineVec V M) → Except PyExc Unit) :
    ∀ (batches : List (List (PineVec V M))) (acc : Nat),
      (∀ b ∈ batches, write b = .ok ()) →
      writeBatches write batches acc =
        .ok (acc + (batches.map List.length).sum)
  | [], acc, _ => by simp [writeBatches]
  | b :: rest, acc, h => by
      have hb := h b (List.mem_cons_self b rest)
      have ih := writeBatches_ok write rest (acc + b.length)
        (fun x hx => h x (List.mem_cons_of_mem b hx))
      simp [writeBatches, hb, ih, Nat.add_assoc]

/-- C8 counterexample.  An empty record list makes `upsert_documents`
fail with `PineconeException` — error kind E201 (`PINECONE_API_ERROR`),
the vector-index kind, not an InvalidInput kind — and the retry wrapper
even retries it: 3 invocations. -/
theorem upsert_error_kind_counterexample :
    (upsert_documents ([] : List (UpsertDoc Unit Unit))
      (fun _ _ => .ok ())).result =
      .error ⟨("Failed to upsert documents: No documents provided for upsert"),
        .PINECONE_API_ERROR, []⟩ ∧
    ErrorCode.PINECONE_API_ERROR ≠ ErrorCode.INVALID_QUERY ∧
    ErrorCode.PINECONE_API_ERROR.value = ("E201") ∧
    (upsert_documents ([] : List (UpsertDoc Unit Unit))
      (fun _ _ => .ok ())).calls = 3 := by
  exact ⟨rfl, by decide, rfl, rfl⟩

/-- C8 (amended).  `upsert_documents` fails with a Pinecone-kind error
(code E201, not an InvalidInput kind) when the record list is empty or
some record lacks `id`, `embedding` or `metadata`; when all records are
valid and every underlying batch write succeeds, it writes them in
sequential batches of at most 100 records each and returns the total
count of records written; a failing underlying write is re-wrapped as a
Pinecone-kind `Failed to upsert documents` error and the whole operation
retried. -/
theorem upsert_contract (documents : List (UpsertDoc V M))
    (write : Nat → List (PineVec V M) → Except PyExc Unit) :
    (documents = [] → (upsert_documents documents write).result =
      .error ⟨("Failed to upsert documents: No documents provided for upsert"),
        .PINECONE_API_ERROR, []⟩) ∧
    ((∃ d ∈ documents, ¬ docValid d) →
      ∃ e, (upsert_documents documents write).result = .error e ∧
        e.error_code = .PINECONE_API_ERROR) ∧
    (documents ≠ [] → (∀ d ∈ documents, docValid d) →
      ∃ vectors, buildVectors documents = .ok vectors ∧
        ((∀ b ∈ batchLoop vectors, write 0 b = .ok ()) →
          (upsert_documents documents write).result =
            .ok (batchLoop vectors, documents.length)) ∧
        (∀ b ∈ batchLoop vectors, b.length ≤ 100) ∧
        (batchLoop vectors).flatten = vectors) ∧
    (documents ≠ [] → (∀ d ∈ documents, docValid d) →
      ∀ e : PyExc, (∀ n b, write n b = .error e) →
        ∃ vectors, buildVectors documents = .ok vectors ∧
          (batchLoop vectors ≠ [] →
            (upsert_documents documents write).result =
              .error ⟨("Failed to upsert documents: ") ++ e.str,
                .PINECONE_API_ERROR, []⟩)) := by
  refine ⟨?_, ?_, ?_, ?_⟩
  · intro hnil
    subst hnil
    rfl
  · intro hinv
    have hne : documents.isEmpty = false := by
      obtain ⟨d, hd, _⟩ := hinv
      cases documents with
      | nil => cases hd
      | cons x xs => rfl
    obtain ⟨msg, hmsg⟩ := buildVectors_invalid documents hinv
    have hbody : ∀ n, upsert_documents_body documents (write n) =
        .error (pineconeExc (("Failed to upsert documents: ") ++ msg)) := by
      intro n
      unfold upsert_documents_body
      rw [hne, hmsg]
      rfl
    refine ⟨⟨("Failed to upsert documents: ") ++ msg, .PINECONE_API_ERROR, []⟩,
      ?_, rfl⟩
    rw [upsert_documents,
      retry3_all_fail _ 1 _ _ _ _ (hbody 0) (hbody 1) (hbody 2)]
    rfl
  · intro hne hvalid
    obtain ⟨vectors, hvec, hlen⟩ := buildVectors_ok documents hvalid
    have hne' : documents.isEmpty = false := by
      cases documents with
      | nil => exact absurd rfl hne
      | cons x xs => rfl
    refine ⟨vectors, hvec, ?_, batchLoop_le vectors, batchLoop_flatten vectors⟩
    intro hw
    have hwb := writeBatches_ok (write 0) (batchLoop vectors) 0 hw
    have hbody : upsert_documents_body documents (write 0) =
        .ok (batchLoop vectors, documents.length) := by
      unfold upsert_documents_body
      rw [hne', hvec]
      simp [hwb, batchLoop_sum, hlen]
    rw [upsert_documents, retry3_ok_first _ 1 _ _ hbody]
  · intro hne hvalid e hw
    obtain ⟨vectors, hvec, hlen⟩ := buildVectors_ok documents hvalid
    have hne' : documents.isEmpty = false := by
      cases documents with
      | nil => exact absurd rfl hne
      | cons x xs => rfl
    refine ⟨vectors, hvec, ?_⟩
    intro hbne
    obtain ⟨b, rest, hbr⟩ : ∃ b rest, batchLoop vectors = b :: rest := by
      cases hbl : batchLoop vectors with
      | nil => exact absurd hbl hbne
      | cons b rest => exact ⟨b, rest, rfl⟩
    have hbody : ∀ n, upsert_documents_body documents (write n) =
        .error (pineconeExc (("Failed to upsert documents: ") ++ e.str)) := by
      intro n
      unfold upsert_documents_body
      rw [hne', hvec]
      simp [hbr, writeBatches, hw n b]
    rw [upsert_documents,
      retry3_all_fail _ 1 _ _ _ _ (hbody 0) (hbody 1) (hbody 2)]
    rfl

/-- One valid record. -/
def upsertDocsW : List (UpsertDoc Unit Unit) := [⟨some ("v1"), some (), some ()⟩]

theorem upsert_contract_witness :
    ∃ vectors, buildVectors upsertDocsW = .ok vectors ∧
      (upsert_documents upsertDocsW (fun _ _ => .ok ())).result =
        .ok (batchLoop vectors, upsertDocsW.length) ∧
      (∀ b ∈ batchLoop vectors, b.length ≤ 100) ∧
      (batchLoop vectors).flatten = vectors := by
  obtain ⟨vectors, hvec, himp, hle, hfl⟩ :=
    (upsert_contract upsertDocsW (fun _ _ => .ok ())).2.2.1
      (by simp [upsertDocsW])
      (by intro d hd; rw [List.mem_singleton.mp hd]; exact ⟨rfl, rfl, rfl⟩)
  exact ⟨vectors, hvec, himp (fun b _ => rfl), hle, hfl⟩

end Chatbot
